import Mathlib

set_option maxRecDepth 4000

/-
Shallow embedding of the brianknows MCP server (src/unnamed/part_001:
types.ts concatenated with index.ts).

The server exposes three tools (ping, search, agent) that call an upstream
HTTP API, caches successful search/agent responses in a bounded
most-recent-5 list (recentSearches), and exposes that list as read-only
resources addressed by "brianknows://searches/<index>".

JavaScript runtime values (the "any"-typed request arguments and response
payloads) are modelled by the inductive JValue below; an absent property
(undefined) is modelled as Option.none at lookup sites.  JS numbers are
modelled as integers (no claim here depends on float behaviour).  The
upstream HTTP client (axios) is modelled as a function from the request
the handler builds to Except AxiosErr JValue; the real timestamp
(new Date().toISOString()) is passed in as an explicit String parameter.
-/

/-- Model of a JavaScript/JSON runtime value. Objects are association
lists of fields in insertion order. -/
inductive JValue : Type where
  | null : JValue
  | bool : Bool → JValue
  | num : Int → JValue
  | str : String → JValue
  | arr : List JValue → JValue
  | obj : List (String × JValue) → JValue

/-- JS truthiness of a present value: false, 0, "" and null are falsy;
objects and arrays are always truthy. -/
def truthyV : JValue → Bool
  | JValue.null => false
  | JValue.bool b => b
  | JValue.num n => n != 0
  | JValue.str s => s != ""
  | JValue.arr _ => true
  | JValue.obj _ => true

/-- JS truthiness of a possibly-undefined value (undefined is falsy). -/
def truthyOpt : Option JValue → Bool
  | none => false
  | some v => truthyV v

/-- Property access v.k on a present value: association-list lookup on
objects, undefined (none) on every other value. -/
def getField : JValue → String → Option JValue
  | JValue.obj fs, k => fs.lookup k
  | _, _ => none

/-- Optional-chaining property access a?.k where a itself may be
undefined. -/
def getOpt (a : Option JValue) (k : String) : Option JValue :=
  a.bind (fun v => getField v k)

/-- The JS expression (a || d): the value a when present and truthy,
otherwise the default d. -/
def jsOr (a : Option JValue) (d : JValue) : JValue :=
  match a with
  | some v => if truthyV v then v else d
  | none => d

/-- Typeof test used by isValidSearchArgs: typeof v === "object" holds for
plain objects, arrays and null. -/
def typeofIsObject : JValue → Bool
  | JValue.obj _ => true
  | JValue.arr _ => true
  | JValue.null => true
  | _ => false

/-- Test typeof x === "string" on a possibly-undefined value. -/
def isStringOpt : Option JValue → Bool
  | some (JValue.str _) => true
  | _ => false

/-- Test typeof x === "number" on a possibly-undefined value. -/
def isNumberOpt : Option JValue → Bool
  | some (JValue.num _) => true
  | _ => false

/-- Test v === null on a present value. -/
def isNullV : JValue → Bool
  | JValue.null => true
  | _ => false

/-- Type guard isValidSearchArgs from types.ts: the argument must be a
non-null object whose query field is a string, and whose kb / numResults
fields, when present, are a string / a number. The argument itself may be
undefined (request.params.arguments is optional), in which case
typeof obj === "object" fails. -/
def isValidSearchArgs : Option JValue → Bool
  | none => false
  | some v =>
      typeofIsObject v && !(isNullV v) &&
      isStringOpt (getField v "query") &&
      ((getField v "kb").isNone || isStringOpt (getField v "kb")) &&
      ((getField v "numResults").isNone || isNumberOpt (getField v "numResults"))

/-- String escaping inside a JSON string literal (model of the escaping
JSON.stringify performs; only the quote and backslash are escaped, which
is all the development needs). -/
def jsonEscapeChar (c : Char) : String :=
  if c = '"' then "\\\""
  else if c = '\\' then "\\\\"
  else String.singleton c

/-- Escape a whole string for inclusion in JSON output. -/
def jsonEscape (s : String) : String :=
  String.join (s.toList.map jsonEscapeChar)

mutual

/-- Model of JSON.stringify on a runtime value. -/
def jsonStringify : JValue → String
  | JValue.null => "null"
  | JValue.bool b => cond b "true" "false"
  | JValue.num n => toString n
  | JValue.str s => "\"" ++ jsonEscape s ++ "\""
  | JValue.arr xs => "[" ++ jsonStringifyArr xs ++ "]"
  | JValue.obj fs => "\x7b" ++ jsonStringifyObj fs ++ "\x7d"

/-- Comma-separated serialization of array elements. -/
def jsonStringifyArr : List JValue → String
  | [] => ""
  | [x] => jsonStringify x
  | x :: y :: xs => jsonStringify x ++ ", " ++ jsonStringifyArr (y :: xs)

/-- Comma-separated serialization of object fields. -/
def jsonStringifyObj : List (String × JValue) → String
  | [] => ""
  | [(k, v)] => "\"" ++ jsonEscape k ++ "\": " ++ jsonStringify v
  | (k, v) :: f :: fs =>
      "\"" ++ jsonEscape k ++ "\": " ++ jsonStringify v ++ ", " ++ jsonStringifyObj (f :: fs)

end

/-- CachedSearch from types.ts. The query field holds the prompt value
the handler caches; types.ts declares it as a string and validated search
calls always store one, but agent validation only checks truthiness, so
at runtime it is whatever value args.prompt held (hence Option JValue:
the value of a property lookup). -/
structure CachedSearch : Type where
  query : Option JValue
  response : JValue
  timestamp : String

/-- API_CONFIG.MAX_CACHED_SEARCHES. -/
def MAX_CACHED_SEARCHES : Nat := 5

/-- API_CONFIG.DEFAULT_KB. -/
def DEFAULT_KB : String := "public-knowledge-box"

/-- The all-zero placeholder blockchain address defaulted in
handleAgent. -/
def ZERO_ADDRESS : String := "0x0000000000000000000000000000000000000000"

/-- The caching step shared by handleSearch and handleAgent:
recentSearches.unshift(entry) followed by recentSearches.pop() when the
length exceeds MAX_CACHED_SEARCHES. -/
def cacheRecord (cache : List CachedSearch) (e : CachedSearch) : List CachedSearch :=
  let pushed := e :: cache
  if pushed.length > MAX_CACHED_SEARCHES then pushed.dropLast else pushed

/-- Body built by handleSearch: prompt is args.query and kb is
args.kb || API_CONFIG.DEFAULT_KB. A KnowledgeBody has exactly these two
fields; in particular numResults never appears in it. -/
structure KnowledgeBody : Type where
  prompt : Option JValue
  kb : JValue

/-- Body built by handleAgent: prompt is args.prompt, address is
args.address || ZERO_ADDRESS, chainId is args.chainId verbatim (none
models undefined, which JSON serialization drops from the outgoing body),
kbId is args.kbId || DEFAULT_KB. -/
structure AgentBody : Type where
  prompt : Option JValue
  address : JValue
  chainId : Option JValue
  kbId : JValue

/-- Construct the handleSearch request body from the raw arguments. -/
def searchBody (args : Option JValue) : KnowledgeBody :=
  { prompt := getOpt args "query"
    kb := jsOr (getOpt args "kb") (JValue.str DEFAULT_KB) }

/-- Construct the handleAgent request body from the raw arguments. -/
def agentBody (args : Option JValue) : AgentBody :=
  { prompt := getOpt args "prompt"
    address := jsOr (getOpt args "address") (JValue.str ZERO_ADDRESS)
    chainId := getOpt args "chainId"
    kbId := jsOr (getOpt args "kbId") (JValue.str DEFAULT_KB) }

/-- One outbound HTTP request as issued by the handlers: GET of the ping
endpoint, or a POST of the built body to the knowledge or agent
endpoint. -/
inductive UpstreamReq : Type where
  | ping : UpstreamReq
  | knowledge : KnowledgeBody → UpstreamReq
  | agent : AgentBody → UpstreamReq

/-- An axios failure (non-2xx response or network error): respError
models error.response?.data?.error when that is present and non-nullish
(already coerced to its display string), message the transport-level
error message. -/
structure AxiosErr : Type where
  respError : Option String
  message : String

/-- Text of the tool-level error produced in the dispatcher's catch
block: "Brian API error: " followed by error.response?.data?.error when
present, else error.message. -/
def axiosErrorText (e : AxiosErr) : String :=
  "Brian API error: " ++ e.respError.getD e.message

/-- MCP error codes used by the server. -/
inductive ErrCode : Type where
  | invalidRequest : ErrCode
  | invalidParams : ErrCode
  | methodNotFound : ErrCode
deriving DecidableEq

/-- Outcome of one tool call: a normal content result, a tool-level error
result (content with isError: true, produced from an axios error), or a
thrown McpError (a protocol-level rejection). -/
inductive ToolOutcome : Type where
  | success : String → ToolOutcome
  | toolError : String → ToolOutcome
  | protocolError : ErrCode → String → ToolOutcome

/-- Result of dispatching one tool call: the recentSearches cache after
the call, the upstream requests issued during it (in order), and the
outcome delivered to the caller. -/
structure CallResult : Type where
  cache : List CachedSearch
  calls : List UpstreamReq
  outcome : ToolOutcome

/-- The CallTool dispatcher (setupToolHandlers) together with the three
handlers handlePing, handleSearch and handleAgent. The upstream client is
the function u; now is the timestamp new Date().toISOString() would
produce. Validation failures and unknown tool names are thrown McpErrors
(protocolError); an axios failure from a handler is caught and converted
to a toolError result, leaving the cache untouched because the handler
aborted before its caching step. -/
def callTool (u : UpstreamReq → Except AxiosErr JValue) (now : String)
    (cache : List CachedSearch) (name : String) (args : Option JValue) : CallResult :=
  if name = "ping" then
    match u UpstreamReq.ping with
    | Except.ok d =>
        { cache := cache, calls := [UpstreamReq.ping]
          outcome := ToolOutcome.success (jsonStringify d) }
    | Except.error e =>
        { cache := cache, calls := [UpstreamReq.ping]
          outcome := ToolOutcome.toolError (axiosErrorText e) }
  else if name = "search" then
    if isValidSearchArgs args then
      let req := searchBody args
      match u (UpstreamReq.knowledge req) with
      | Except.ok d =>
          { cache := cacheRecord cache { query := req.prompt, response := d, timestamp := now }
            calls := [UpstreamReq.knowledge req]
            outcome := ToolOutcome.success (jsonStringify d) }
      | Except.error e =>
          { cache := cache, calls := [UpstreamReq.knowledge req]
            outcome := ToolOutcome.toolError (axiosErrorText e) }
    else
      { cache := cache, calls := []
        outcome := ToolOutcome.protocolError ErrCode.invalidParams "Invalid search arguments" }
  else if name = "agent" then
    if truthyOpt (getOpt args "prompt") then
      let req := agentBody args
      match u (UpstreamReq.agent req) with
      | Except.ok d =>
          { cache := cacheRecord cache { query := req.prompt, response := d, timestamp := now }
            calls := [UpstreamReq.agent req]
            outcome := ToolOutcome.success (jsonStringify d) }
      | Except.error e =>
          { cache := cache, calls := [UpstreamReq.agent req]
            outcome := ToolOutcome.toolError (axiosErrorText e) }
    else
      { cache := cache, calls := []
        outcome := ToolOutcome.protocolError ErrCode.invalidParams
          "Missing required 'prompt' parameter" }
  else
    { cache := cache, calls := []
      outcome := ToolOutcome.protocolError ErrCode.methodNotFound ("Unknown tool: " ++ name) }

/-- Parse a resource URI against the anchored regular expression used by
the read handler, brianknows://searches/(digits) with nothing before or
after: some index when the URI is exactly the fixed scheme-and-path
followed by a non-empty ASCII-digit string (the digit group, converted
by parseInt as a decimal number), none otherwise. Characters are
compared as lists so the definition evaluates structurally. -/
def parseSearchUri (uri : String) : Option Nat :=
  let pre := "brianknows://searches/".toList
  let cs := uri.toList
  if cs.take pre.length = pre then
    let ds := cs.drop pre.length
    if ds ≠ [] ∧ ds.all Char.isDigit then
      some (ds.foldl (fun a c => a * 10 + (c.toNat - 48)) 0)
    else none
  else none

/-- The ReadResourceRequestSchema handler: a malformed URI throws an
InvalidRequest McpError, an index with no cache entry throws an
InvalidRequest McpError, and otherwise the stored response payload is
returned serialized as JSON text. -/
def readResource (cache : List CachedSearch) (uri : String) :
    Except (ErrCode × String) String :=
  match parseSearchUri uri with
  | none => Except.error (ErrCode.invalidRequest, "Unknown resource: " ++ uri)
  | some idx =>
      match cache[idx]? with
      | none => Except.error (ErrCode.invalidRequest, "Search result not found: " ++ toString idx)
      | some s => Except.ok (jsonStringify s.response)

/-- One tool invocation as seen by the dispatcher: the upstream client in
effect, the current timestamp, the tool name and the raw arguments. -/
structure ToolStep : Type where
  u : UpstreamReq → Except AxiosErr JValue
  now : String
  name : String
  args : Option JValue

/-- Run a sequence of tool calls, threading the recentSearches cache. -/
def runCalls (steps : List ToolStep) (cache : List CachedSearch) : List CachedSearch :=
  steps.foldl (fun c s => (callTool s.u s.now c s.name s.args).cache) cache

/-- The cache entry a step inserts, when it inserts one: search and agent
steps that pass validation and whose upstream call succeeds insert
exactly this entry; every other step (ping, validation failure, upstream
failure, unknown tool) inserts nothing. -/
def stepEntry? (s : ToolStep) : Option CachedSearch :=
  if s.name = "ping" then none
  else if s.name = "search" then
    if isValidSearchArgs s.args then
      match s.u (UpstreamReq.knowledge (searchBody s.args)) with
      | Except.ok d => some { query := (searchBody s.args).prompt, response := d, timestamp := s.now }
      | Except.error _ => none
    else none
  else if s.name = "agent" then
    if truthyOpt (getOpt s.args "prompt") then
      match s.u (UpstreamReq.agent (agentBody s.args)) with
      | Except.ok d => some { query := (agentBody s.args).prompt, response := d, timestamp := s.now }
      | Except.error _ => none
    else none
  else none

/-- Whether a step's outcome is a success result. The outcome of a call
does not depend on the cache it runs against, so it is evaluated at the
empty cache. -/
def stepSucceeds (s : ToolStep) : Bool :=
  match (callTool s.u s.now [] s.name s.args).outcome with
  | ToolOutcome.success _ => true
  | _ => false

/-
Helper lemmas shared by the claim theorems.
-/

/-- Unfolding of the dispatcher on the search tool name. -/
theorem callTool_search (u : UpstreamReq → Except AxiosErr JValue) (now : String)
    (cache : List CachedSearch) (args : Option JValue) :
    callTool u now cache "search" args =
      (if isValidSearchArgs args then
        match u (UpstreamReq.knowledge (searchBody args)) with
        | Except.ok d =>
            { cache := cacheRecord cache
                { query := (searchBody args).prompt, response := d, timestamp := now }
              calls := [UpstreamReq.knowledge (searchBody args)]
              outcome := ToolOutcome.success (jsonStringify d) }
        | Except.error e =>
            { cache := cache, calls := [UpstreamReq.knowledge (searchBody args)]
              outcome := ToolOutcome.toolError (axiosErrorText e) }
      else
        { cache := cache, calls := []
          outcome := ToolOutcome.protocolError ErrCode.invalidParams "Invalid search arguments" }) := by
  rfl

/-- Unfolding of the dispatcher on the agent tool name. -/
theorem callTool_agent (u : UpstreamReq → Except AxiosErr JValue) (now : String)
    (cache : List CachedSearch) (args : Option JValue) :
    callTool u now cache "agent" args =
      (if truthyOpt (getOpt args "prompt") then
        match u (UpstreamReq.agent (agentBody args)) with
        | Except.ok d =>
            { cache := cacheRecord cache
                { query := (agentBody args).prompt, response := d, timestamp := now }
              calls := [UpstreamReq.agent (agentBody args)]
              outcome := ToolOutcome.success (jsonStringify d) }
        | Except.error e =>
            { cache := cache, calls := [UpstreamReq.agent (agentBody args)]
              outcome := ToolOutcome.toolError (axiosErrorText e) }
      else
        { cache := cache, calls := []
          outcome := ToolOutcome.protocolError ErrCode.invalidParams
            "Missing required 'prompt' parameter" }) := by
  rfl

/-- C2: reading a resource never crashes; a URI that does not match
brianknows://searches/(digits) is rejected as an invalid request, a
parsed index at or beyond the cache length is rejected as not found, and
an in-range index returns the stored response payload of the entry at
that index serialized as JSON text. -/
theorem readResource_spec (cache : List CachedSearch) (uri : String) :
    (parseSearchUri uri = none →
      readResource cache uri =
        Except.error (ErrCode.invalidRequest, "Unknown resource: " ++ uri)) ∧
    (∀ idx : Nat, parseSearchUri uri = some idx → cache.length ≤ idx →
      readResource cache uri =
        Except.error (ErrCode.invalidRequest, "Search result not found: " ++ toString idx)) ∧
    (∀ idx : Nat, parseSearchUri uri = some idx → ∀ h : idx < cache.length,
      readResource cache uri = Except.ok (jsonStringify (cache.get ⟨idx, h⟩).response)) := by
  refine ⟨?_, ?_, ?_⟩
  · intro h
    unfold readResource
    rw [h]
  · intro idx h hlen
    have step : readResource cache uri =
        (match cache[idx]? with
          | none =>
              Except.error (ErrCode.invalidRequest, "Search result not found: " ++ toString idx)
          | some s => Except.ok (jsonStringify s.response)) := by
      unfold readResource
      rw [h]
    rw [step, List.getElem?_eq_none hlen]
  · intro idx h hlt
    have step : readResource cache uri =
        (match cache[idx]? with
          | none =>
              Except.error (ErrCode.invalidRequest, "Search result not found: " ++ toString idx)
          | some s => Except.ok (jsonStringify s.response)) := by
      unfold readResource
      rw [h]
    rw [step, List.getElem?_eq_getElem hlt]
    simp [List.get_eq_getElem]

/-- Witness for readResource_spec: each of the three branches discharged
at a concrete input. -/
theorem readResource_spec_witness :
    readResource [] "bogus" =
      Except.error (ErrCode.invalidRequest, "Unknown resource: bogus") ∧
    readResource [] "brianknows://searches/0" =
      Except.error (ErrCode.invalidRequest, "Search result not found: 0") ∧
    readResource [{ query := some (JValue.str "q"), response := JValue.str "r", timestamp := "t" }]
        "brianknows://searches/0" =
      Except.ok (jsonStringify (JValue.str "r")) := by
  refine ⟨(readResource_spec [] "bogus").1 rfl, ?_, ?_⟩
  · exact (readResource_spec [] "brianknows://searches/0").2.1 0 rfl (by simp)
  · exact (readResource_spec
      [{ query := some (JValue.str "q"), response := JValue.str "r", timestamp := "t" }]
      "brianknows://searches/0").2.2 0 rfl (by simp)

/-- Unfolding of the dispatcher on the ping tool name. -/
theorem callTool_ping (u : UpstreamReq → Except AxiosErr JValue) (now : String)
    (cache : List CachedSearch) (args : Option JValue) :
    callTool u now cache "ping" args =
      (match u UpstreamReq.ping with
        | Except.ok d =>
            { cache := cache, calls := [UpstreamReq.ping]
              outcome := ToolOutcome.success (jsonStringify d) }
        | Except.error e =>
            { cache := cache, calls := [UpstreamReq.ping]
              outcome := ToolOutcome.toolError (axiosErrorText e) }) := by
  rfl

/-- C6: a search call whose arguments fail the type guard is rejected
with an invalid-parameters protocol error, issues no upstream request and
leaves the cache unchanged; and the guard indeed fails when query is
missing, when query is a non-string, and when a present kb or numResults
has the wrong type. -/
theorem search_invalid_args_rejected :
    (∀ (u : UpstreamReq → Except AxiosErr JValue) (now : String) (cache : List CachedSearch)
        (args : Option JValue), isValidSearchArgs args = false →
      callTool u now cache "search" args =
        { cache := cache, calls := []
          outcome := ToolOutcome.protocolError ErrCode.invalidParams "Invalid search arguments" }) ∧
    (∀ args : Option JValue, getOpt args "query" = none → isValidSearchArgs args = false) ∧
    (∀ (args : Option JValue) (v : JValue), getOpt args "query" = some v →
      isStringOpt (some v) = false → isValidSearchArgs args = false) ∧
    (∀ (args : Option JValue) (v : JValue), getOpt args "kb" = some v →
      isStringOpt (some v) = false → isValidSearchArgs args = false) ∧
    (∀ (args : Option JValue) (v : JValue), getOpt args "numResults" = some v →
      isNumberOpt (some v) = false → isValidSearchArgs args = false) := by
  refine ⟨?_, ?_, ?_, ?_, ?_⟩
  · intro u now cache args h
    rw [callTool_search, if_neg (by simp [h])]
  · intro args h
    cases args with
    | none => rfl
    | some v =>
        simp only [getOpt, Option.some_bind] at h
        simp [isValidSearchArgs, h, isStringOpt]
  · intro args v hq hw
    cases args with
    | none => simp [getOpt] at hq
    | some w =>
        simp only [getOpt, Option.some_bind] at hq
        simp [isValidSearchArgs, hq, hw]
  · intro args v hk hw
    cases args with
    | none => simp [getOpt] at hk
    | some w =>
        simp only [getOpt, Option.some_bind] at hk
        simp [isValidSearchArgs, hk, hw]
  · intro args v hn hw
    cases args with
    | none => simp [getOpt] at hn
    | some w =>
        simp only [getOpt, Option.some_bind] at hn
        simp [isValidSearchArgs, hn, hw]

/-- Witness for search_invalid_args_rejected: all five parts discharged
at concrete inputs (missing query, undefined arguments, numeric query,
numeric kb, string numResults). -/
theorem search_invalid_args_rejected_witness :
    callTool (fun _ => Except.ok JValue.null) "t" [] "search" (some (JValue.obj [])) =
      { cache := [], calls := []
        outcome := ToolOutcome.protocolError ErrCode.invalidParams "Invalid search arguments" } ∧
    isValidSearchArgs (none : Option JValue) = false ∧
    isValidSearchArgs (some (JValue.obj [("query", JValue.num 1)])) = false ∧
    isValidSearchArgs (some (JValue.obj [("query", JValue.str "q"), ("kb", JValue.num 2)])) = false ∧
    isValidSearchArgs
      (some (JValue.obj [("query", JValue.str "q"), ("numResults", JValue.str "x")])) = false := by
  refine ⟨search_invalid_args_rejected.1 _ _ _ _ rfl,
    search_invalid_args_rejected.2.1 none rfl,
    search_invalid_args_rejected.2.2.1 _ (JValue.num 1) rfl rfl,
    search_invalid_args_rejected.2.2.2.1 _ (JValue.num 2) rfl rfl,
    search_invalid_args_rejected.2.2.2.2 _ (JValue.str "x") rfl rfl⟩

/-- C7: a ping call whose upstream request succeeds returns the raw
upstream payload serialized as JSON, issues exactly the ping request, and
returns the cache unchanged (same list, hence same length and entries). -/
theorem ping_success_echoes_and_preserves_cache
    (u : UpstreamReq → Except AxiosErr JValue) (now : String) (cache : List CachedSearch)
    (args : Option JValue) (d : JValue) (h : u UpstreamReq.ping = Except.ok d) :
    callTool u now cache "ping" args =
      { cache := cache, calls := [UpstreamReq.ping]
        outcome := ToolOutcome.success (jsonStringify d) } := by
  rw [callTool_ping, h]

/-- Witness for ping_success_echoes_and_preserves_cache at a stub
upstream returning an object payload. -/
theorem ping_success_witness :
    callTool (fun _ => Except.ok (JValue.obj [("status", JValue.str "ok")])) "t"
      [{ query := some (JValue.str "q"), response := JValue.null, timestamp := "t0" }]
      "ping" none =
      { cache := [{ query := some (JValue.str "q"), response := JValue.null, timestamp := "t0" }]
        calls := [UpstreamReq.ping]
        outcome := ToolOutcome.success (jsonStringify (JValue.obj [("status", JValue.str "ok")])) } :=
  ping_success_echoes_and_preserves_cache _ _ _ _ _ rfl

/-- C3: for each tool, an upstream failure is surfaced as a tool-level
error result (the toolError constructor, distinct from a thrown
protocol-level McpError) whose text carries the upstream-provided error
message when present, else the transport-level message; the cache is
returned unchanged and the dispatcher remains a total function, so
subsequent requests are served. -/
theorem upstream_failure_is_tool_error
    (u : UpstreamReq → Except AxiosErr JValue) (now : String) (cache : List CachedSearch)
    (args : Option JValue) :
    (∀ e : AxiosErr, u UpstreamReq.ping = Except.error e →
      callTool u now cache "ping" args =
        { cache := cache, calls := [UpstreamReq.ping]
          outcome := ToolOutcome.toolError ("Brian API error: " ++ e.respError.getD e.message) }) ∧
    (∀ e : AxiosErr, isValidSearchArgs args = true →
      u (UpstreamReq.knowledge (searchBody args)) = Except.error e →
      callTool u now cache "search" args =
        { cache := cache, calls := [UpstreamReq.knowledge (searchBody args)]
          outcome := ToolOutcome.toolError ("Brian API error: " ++ e.respError.getD e.message) }) ∧
    (∀ e : AxiosErr, truthyOpt (getOpt args "prompt") = true →
      u (UpstreamReq.agent (agentBody args)) = Except.error e →
      callTool u now cache "agent" args =
        { cache := cache, calls := [UpstreamReq.agent (agentBody args)]
          outcome := ToolOutcome.toolError ("Brian API error: " ++ e.respError.getD e.message) }) := by
  refine ⟨?_, ?_, ?_⟩
  · intro e h
    rw [callTool_ping, h]
    rfl
  · intro e hv h
    rw [callTool_search, if_pos hv, h]
    rfl
  · intro e ht h
    rw [callTool_agent, if_pos ht, h]
    rfl

/-- Witness for upstream_failure_is_tool_error: a stub upstream failing
with an upstream-provided message, and one failing with only a transport
message, at concrete arguments valid for all three tools. -/
theorem upstream_failure_is_tool_error_witness :
    callTool (fun _ => Except.error { respError := some "kb down", message := "net" }) "t" []
      "ping" none =
      { cache := [], calls := [UpstreamReq.ping]
        outcome := ToolOutcome.toolError ("Brian API error: " ++ "kb down") } ∧
    callTool (fun _ => Except.error { respError := some "kb down", message := "net" }) "t" []
      "search" (some (JValue.obj [("query", JValue.str "q")])) =
      { cache := []
        calls := [UpstreamReq.knowledge (searchBody (some (JValue.obj [("query", JValue.str "q")])))]
        outcome := ToolOutcome.toolError ("Brian API error: " ++ "kb down") } ∧
    callTool (fun _ => Except.error { respError := none, message := "timeout" }) "t" []
      "agent" (some (JValue.obj [("prompt", JValue.str "p")])) =
      { cache := []
        calls := [UpstreamReq.agent (agentBody (some (JValue.obj [("prompt", JValue.str "p")])))]
        outcome := ToolOutcome.toolError ("Brian API error: " ++ "timeout") } := by
  refine ⟨(upstream_failure_is_tool_error
      (fun _ => Except.error { respError := some "kb down", message := "net" }) "t" [] none).1
      { respError := some "kb down", message := "net" } rfl,
    (upstream_failure_is_tool_error
      (fun _ => Except.error { respError := some "kb down", message := "net" }) "t" []
      (some (JValue.obj [("query", JValue.str "q")]))).2.1
      { respError := some "kb down", message := "net" } rfl rfl,
    (upstream_failure_is_tool_error
      (fun _ => Except.error { respError := none, message := "timeout" }) "t" []
      (some (JValue.obj [("prompt", JValue.str "p")]))).2.2
      { respError := none, message := "timeout" } rfl rfl⟩

/-- C10: a search or agent call whose upstream request fails leaves the
recent-results cache exactly as it was; insertion happens only after a
successful upstream response. -/
theorem upstream_failure_preserves_cache
    (u : UpstreamReq → Except AxiosErr JValue) (now : String) (cache : List CachedSearch)
    (args : Option JValue) :
    (∀ e : AxiosErr, isValidSearchArgs args = true →
      u (UpstreamReq.knowledge (searchBody args)) = Except.error e →
      (callTool u now cache "search" args).cache = cache) ∧
    (∀ e : AxiosErr, truthyOpt (getOpt args "prompt") = true →
      u (UpstreamReq.agent (agentBody args)) = Except.error e →
      (callTool u now cache "agent" args).cache = cache) := by
  constructor
  · intro e hv h
    rw [callTool_search, if_pos hv, h]
  · intro e ht h
    rw [callTool_agent, if_pos ht, h]

/-- Witness for upstream_failure_preserves_cache on a non-empty starting
cache and a failing stub upstream. -/
theorem upstream_failure_preserves_cache_witness :
    (callTool (fun _ => Except.error { respError := none, message := "net" }) "t"
      [{ query := some (JValue.str "old"), response := JValue.null, timestamp := "t0" }]
      "search" (some (JValue.obj [("query", JValue.str "q")]))).cache =
      [{ query := some (JValue.str "old"), response := JValue.null, timestamp := "t0" }] ∧
    (callTool (fun _ => Except.error { respError := none, message := "net" }) "t"
      [{ query := some (JValue.str "old"), response := JValue.null, timestamp := "t0" }]
      "agent" (some (JValue.obj [("prompt", JValue.str "p")]))).cache =
      [{ query := some (JValue.str "old"), response := JValue.null, timestamp := "t0" }] := by
  refine ⟨(upstream_failure_preserves_cache
      (fun _ => Except.error { respError := none, message := "net" }) "t"
      [{ query := some (JValue.str "old"), response := JValue.null, timestamp := "t0" }]
      (some (JValue.obj [("query", JValue.str "q")]))).1
      { respError := none, message := "net" } rfl rfl,
    (upstream_failure_preserves_cache
      (fun _ => Except.error { respError := none, message := "net" }) "t"
      [{ query := some (JValue.str "old"), response := JValue.null, timestamp := "t0" }]
      (some (JValue.obj [("prompt", JValue.str "p")]))).2
      { respError := none, message := "net" } rfl rfl⟩

/-- C9: agent validation is exactly a truthiness check of prompt. A falsy
prompt (undefined, or present but the empty string) is rejected with an
invalid-parameters protocol error, no upstream request and no cache
change, while any truthy prompt, string or not, passes validation and is
forwarded upstream unchanged as the body's prompt field. -/
theorem agent_validation_truthiness_only
    (u : UpstreamReq → Except AxiosErr JValue) (now : String) (cache : List CachedSearch)
    (args : Option JValue) :
    (truthyOpt (getOpt args "prompt") = false →
      callTool u now cache "agent" args =
        { cache := cache, calls := []
          outcome := ToolOutcome.protocolError ErrCode.invalidParams
            "Missing required 'prompt' parameter" }) ∧
    (truthyOpt (getOpt args "prompt") = true →
      (callTool u now cache "agent" args).calls = [UpstreamReq.agent (agentBody args)] ∧
      (agentBody args).prompt = getOpt args "prompt") := by
  constructor
  · intro h
    rw [callTool_agent, if_neg (by simp [h])]
  · intro ht
    refine ⟨?_, rfl⟩
    rw [callTool_agent, if_pos ht]
    cases hu : u (UpstreamReq.agent (agentBody args)) <;> rfl

/-- Witness for agent_validation_truthiness_only: an empty-string prompt
is rejected without an upstream call; a numeric (truthy non-string)
prompt is forwarded upstream. -/
theorem agent_validation_truthiness_only_witness :
    callTool (fun _ => Except.ok JValue.null) "t" [] "agent"
      (some (JValue.obj [("prompt", JValue.str "")])) =
      { cache := [], calls := []
        outcome := ToolOutcome.protocolError ErrCode.invalidParams
          "Missing required 'prompt' parameter" } ∧
    ((callTool (fun _ => Except.ok JValue.null) "t" [] "agent"
        (some (JValue.obj [("prompt", JValue.num 7)]))).calls =
      [UpstreamReq.agent (agentBody (some (JValue.obj [("prompt", JValue.num 7)])))] ∧
      (agentBody (some (JValue.obj [("prompt", JValue.num 7)]))).prompt =
        getOpt (some (JValue.obj [("prompt", JValue.num 7)])) "prompt") := by
  refine ⟨(agent_validation_truthiness_only (fun _ => Except.ok JValue.null) "t" []
      (some (JValue.obj [("prompt", JValue.str "")]))).1 rfl,
    (agent_validation_truthiness_only (fun _ => Except.ok JValue.null) "t" []
      (some (JValue.obj [("prompt", JValue.num 7)]))).2 rfl⟩

/-- C8: recording an entry and immediately reading position 0 of the
cache returns the just-recorded entry with its query and response payload
unchanged, for every starting cache state. -/
theorem record_then_get_zero (cache : List CachedSearch) (q : Option JValue) (r : JValue)
    (ts : String) :
    (cacheRecord cache { query := q, response := r, timestamp := ts })[0]? =
      some { query := q, response := r, timestamp := ts } := by
  cases cache with
  | nil => simp [cacheRecord, MAX_CACHED_SEARCHES]
  | cons y l =>
      simp only [cacheRecord]
      split
      · rw [List.dropLast_cons₂]
        simp
      · simp

/-- C5: a valid search call forwards exactly the two-field body whose
prompt is the query argument (necessarily a string) and whose kb is the
supplied kb when truthy, else the default knowledge box; the body is a
function of the query and kb lookups alone, so numResults is never
forwarded, although the type guard accepts it when it is a number. -/
theorem search_forwards_prompt_and_kb_only
    (u : UpstreamReq → Except AxiosErr JValue) (now : String) (cache : List CachedSearch)
    (args : Option JValue) :
    (isValidSearchArgs args = true →
      (callTool u now cache "search" args).calls = [UpstreamReq.knowledge (searchBody args)] ∧
      (∃ q : String, getOpt args "query" = some (JValue.str q)) ∧
      (searchBody args).prompt = getOpt args "query" ∧
      (searchBody args).kb = jsOr (getOpt args "kb") (JValue.str DEFAULT_KB)) ∧
    (∀ args2 : Option JValue, getOpt args "query" = getOpt args2 "query" →
      getOpt args "kb" = getOpt args2 "kb" → searchBody args = searchBody args2) ∧
    (∀ (q : String) (n : Int),
      isValidSearchArgs
        (some (JValue.obj [("query", JValue.str q), ("numResults", JValue.num n)])) = true) := by
  refine ⟨?_, ?_, ?_⟩
  · intro hv
    refine ⟨?_, ?_, rfl, rfl⟩
    · rw [callTool_search, if_pos hv]
      cases hu : u (UpstreamReq.knowledge (searchBody args)) <;> rfl
    · cases args with
      | none => simp [isValidSearchArgs] at hv
      | some v =>
          simp only [isValidSearchArgs, Bool.and_eq_true] at hv
          have hs := hv.1.1.2
          cases hgf : getField v "query" with
          | none => simp [hgf, isStringOpt] at hs
          | some w =>
              cases w with
              | str t => exact ⟨t, by simp [getOpt, Option.some_bind, hgf]⟩
              | null => simp [hgf, isStringOpt] at hs
              | bool b => simp [hgf, isStringOpt] at hs
              | num n => simp [hgf, isStringOpt] at hs
              | arr xs => simp [hgf, isStringOpt] at hs
              | obj fs => simp [hgf, isStringOpt] at hs
  · intro args2 h1 h2
    simp only [searchBody, h1, h2]
  · intro q n
    rfl

/-- Witness for search_forwards_prompt_and_kb_only: a concrete valid
search call carrying a numResults argument, the same body produced with
and without numResults, and the guard accepting numeric numResults. -/
theorem search_forwards_prompt_and_kb_only_witness :
    ((callTool (fun _ => Except.ok JValue.null) "t" [] "search"
        (some (JValue.obj [("query", JValue.str "q"), ("numResults", JValue.num 3)]))).calls =
      [UpstreamReq.knowledge
        (searchBody (some (JValue.obj [("query", JValue.str "q"), ("numResults", JValue.num 3)])))] ∧
      (∃ s : String,
        getOpt (some (JValue.obj [("query", JValue.str "q"), ("numResults", JValue.num 3)]))
          "query" = some (JValue.str s)) ∧
      (searchBody (some (JValue.obj [("query", JValue.str "q"), ("numResults", JValue.num 3)]))).prompt =
        getOpt (some (JValue.obj [("query", JValue.str "q"), ("numResults", JValue.num 3)])) "query" ∧
      (searchBody (some (JValue.obj [("query", JValue.str "q"), ("numResults", JValue.num 3)]))).kb =
        jsOr (getOpt (some (JValue.obj [("query", JValue.str "q"), ("numResults", JValue.num 3)])) "kb")
          (JValue.str DEFAULT_KB)) ∧
    searchBody (some (JValue.obj [("query", JValue.str "q"), ("numResults", JValue.num 3)])) =
      searchBody (some (JValue.obj [("query", JValue.str "q")])) ∧
    isValidSearchArgs
      (some (JValue.obj [("query", JValue.str "q"), ("numResults", JValue.num 3)])) = true := by
  refine ⟨(search_forwards_prompt_and_kb_only (fun _ => Except.ok JValue.null) "t" []
      (some (JValue.obj [("query", JValue.str "q"), ("numResults", JValue.num 3)]))).1 rfl,
    (search_forwards_prompt_and_kb_only (fun _ => Except.ok JValue.null) "t" []
      (some (JValue.obj [("query", JValue.str "q"), ("numResults", JValue.num 3)]))).2.1
      (some (JValue.obj [("query", JValue.str "q")])) rfl rfl,
    (search_forwards_prompt_and_kb_only (fun _ => Except.ok JValue.null) "t" []
      (some (JValue.obj [("query", JValue.str "q"), ("numResults", JValue.num 3)]))).2.2 "q" 3⟩

/-- C4 counterexample: the claim says a supplied address is forwarded,
but supplying the empty string (a falsy value) as address forwards the
all-zero placeholder instead of the supplied value. -/
theorem agent_supplied_address_not_forwarded :
    (agentBody (some (JValue.obj [("prompt", JValue.str "hi"),
        ("address", JValue.str "")]))).address = JValue.str ZERO_ADDRESS ∧
    JValue.str ZERO_ADDRESS ≠ JValue.str "" := by
  refine ⟨rfl, ?_⟩
  simp [ZERO_ADDRESS]

/-- C4 (amended): an agent call supplying only prompt forwards the body
whose address is the all-zero placeholder, whose chainId is absent and
whose kbId is the default knowledge box; a supplied truthy address or
kbId is forwarded in place of the default (a falsy supplied value, such
as the empty string, falls back to the default), a supplied chainId is
forwarded verbatim, and the prompt is always forwarded unchanged. -/
theorem agent_body_defaults
    (u : UpstreamReq → Except AxiosErr JValue) (now : String) (cache : List CachedSearch) :
    (∀ p : JValue, truthyV p = true →
      (callTool u now cache "agent" (some (JValue.obj [("prompt", p)]))).calls =
        [UpstreamReq.agent
          { prompt := some p, address := JValue.str ZERO_ADDRESS, chainId := none
            kbId := JValue.str DEFAULT_KB }]) ∧
    (∀ (args : Option JValue) (a : JValue), getOpt args "address" = some a → truthyV a = true →
      (agentBody args).address = a) ∧
    (∀ (args : Option JValue) (k : JValue), getOpt args "kbId" = some k → truthyV k = true →
      (agentBody args).kbId = k) ∧
    (∀ (args : Option JValue) (c : JValue), getOpt args "chainId" = some c →
      (agentBody args).chainId = some c) ∧
    (∀ args : Option JValue, (agentBody args).prompt = getOpt args "prompt") := by
  refine ⟨?_, ?_, ?_, ?_, fun _ => rfl⟩
  · intro p hp
    have ht : truthyOpt (getOpt (some (JValue.obj [("prompt", p)])) "prompt") = true := by
      show truthyV p = true
      exact hp
    rw [callTool_agent, if_pos ht]
    cases hu : u (UpstreamReq.agent (agentBody (some (JValue.obj [("prompt", p)])))) <;> rfl
  · intro args a h ha
    simp [agentBody, jsOr, h, ha]
  · intro args k h hk
    simp [agentBody, jsOr, h, hk]
  · intro args c h
    simp [agentBody, h]

/-- Witness for agent_body_defaults: a concrete defaults-only call and
concrete supplied truthy address, kbId and chainId values. -/
theorem agent_body_defaults_witness :
    (callTool (fun _ => Except.ok JValue.null) "t" [] "agent"
        (some (JValue.obj [("prompt", JValue.str "what is brian")]))).calls =
      [UpstreamReq.agent
        { prompt := some (JValue.str "what is brian"), address := JValue.str ZERO_ADDRESS
          chainId := none, kbId := JValue.str DEFAULT_KB }] ∧
    (agentBody (some (JValue.obj [("prompt", JValue.str "p"),
        ("address", JValue.str "0xabc")]))).address = JValue.str "0xabc" ∧
    (agentBody (some (JValue.obj [("prompt", JValue.str "p"),
        ("kbId", JValue.str "circle_kb")]))).kbId = JValue.str "circle_kb" ∧
    (agentBody (some (JValue.obj [("prompt", JValue.str "p"),
        ("chainId", JValue.str "1")]))).chainId = some (JValue.str "1") ∧
    (agentBody (some (JValue.obj [("prompt", JValue.str "p")]))).prompt =
      getOpt (some (JValue.obj [("prompt", JValue.str "p")])) "prompt" := by
  refine ⟨(agent_body_defaults (fun _ => Except.ok JValue.null) "t" []).1
      (JValue.str "what is brian") rfl,
    (agent_body_defaults (fun _ => Except.ok JValue.null) "t" []).2.1
      (some (JValue.obj [("prompt", JValue.str "p"), ("address", JValue.str "0xabc")]))
      (JValue.str "0xabc") rfl rfl,
    (agent_body_defaults (fun _ => Except.ok JValue.null) "t" []).2.2.1
      (some (JValue.obj [("prompt", JValue.str "p"), ("kbId", JValue.str "circle_kb")]))
      (JValue.str "circle_kb") rfl rfl,
    (agent_body_defaults (fun _ => Except.ok JValue.null) "t" []).2.2.2.1
      (some (JValue.obj [("prompt", JValue.str "p"), ("chainId", JValue.str "1")]))
      (JValue.str "1") rfl,
    (agent_body_defaults (fun _ => Except.ok JValue.null) "t" []).2.2.2.2
      (some (JValue.obj [("prompt", JValue.str "p")]))⟩

/-- A record step on a cache within capacity is a push-front truncated to
the capacity. -/
theorem cacheRecord_eq_take (c : List CachedSearch) (e : CachedSearch)
    (h : c.length ≤ MAX_CACHED_SEARCHES) :
    cacheRecord c e = (e :: c).take MAX_CACHED_SEARCHES := by
  simp only [cacheRecord]
  by_cases hl : (e :: c).length > MAX_CACHED_SEARCHES
  · rw [if_pos hl, List.dropLast_eq_take]
    have h1 : (e :: c).length - 1 = MAX_CACHED_SEARCHES := by
      simp only [List.length_cons] at hl ⊢
      omega
    rw [h1]
  · rw [if_neg hl, List.take_of_length_le]
    simp only [List.length_cons] at hl ⊢
    omega

/-- Truncation absorbs an earlier truncation of the appended tail. -/
theorem take5_absorb (xs ys : List CachedSearch) :
    (xs ++ ys.take MAX_CACHED_SEARCHES).take MAX_CACHED_SEARCHES =
      (xs ++ ys).take MAX_CACHED_SEARCHES := by
  rw [List.take_append_eq_append_take, List.take_append_eq_append_take, List.take_take,
    Nat.min_eq_left (Nat.sub_le _ _)]

/-- Effect of one dispatched call on the cache: the entry of stepEntry?
is recorded when there is one, and the cache is untouched otherwise. -/
theorem callTool_cache_effect (s : ToolStep) (c : List CachedSearch) :
    (callTool s.u s.now c s.name s.args).cache =
      (match stepEntry? s with
        | some e => cacheRecord c e
        | none => c) := by
  obtain ⟨u, now, name, args⟩ := s
  by_cases hp : name = "ping"
  · subst hp
    cases hu : u UpstreamReq.ping <;> simp [callTool_ping, stepEntry?, hu]
  · by_cases hs : name = "search"
    · subst hs
      by_cases hv : isValidSearchArgs args = true
      · cases hu : u (UpstreamReq.knowledge (searchBody args)) <;>
          simp [callTool_search, stepEntry?, hv, hu]
      · simp [callTool_search, stepEntry?, hv]
    · by_cases ha : name = "agent"
      · subst ha
        by_cases ht : truthyOpt (getOpt args "prompt") = true
        · cases hu : u (UpstreamReq.agent (agentBody args)) <;>
            simp [callTool_agent, stepEntry?, ht, hu]
        · simp [callTool_agent, stepEntry?, ht]
      · simp [callTool, stepEntry?, hp, hs, ha]

/-- Closed form of a call sequence started within capacity: the cache is
the reversed list of recorded entries in front of the old cache,
truncated to the capacity. -/
theorem runCalls_eq_take (steps : List ToolStep) :
    ∀ c : List CachedSearch, c.length ≤ MAX_CACHED_SEARCHES →
      runCalls steps c =
        ((steps.filterMap stepEntry?).reverse ++ c).take MAX_CACHED_SEARCHES := by
  induction steps with
  | nil =>
      intro c h
      simp only [runCalls, List.foldl_nil, List.filterMap_nil, List.reverse_nil,
        List.nil_append]
      rw [List.take_of_length_le h]
  | cons s ss ih =>
      intro c h
      have hstep : runCalls (s :: ss) c =
          runCalls ss ((callTool s.u s.now c s.name s.args).cache) := rfl
      rw [hstep, callTool_cache_effect]
      cases he : stepEntry? s with
      | none =>
          have hred : (match (none : Option CachedSearch) with
              | some x => cacheRecord c x
              | none => c) = c := rfl
          rw [hred, ih c h]
          simp [List.filterMap_cons, he]
      | some e =>
          have hred : (match some e with
              | some x => cacheRecord c x
              | none => c) = cacheRecord c e := rfl
          rw [hred, cacheRecord_eq_take c e h]
          rw [ih _ (by rw [List.length_take]; exact Nat.min_le_left _ _)]
          simp only [List.filterMap_cons, he, List.reverse_cons, List.append_assoc,
            List.singleton_append]
          exact take5_absorb _ _

/-- A filterMap whose function is defined on every element preserves the
length. -/
theorem length_filterMap_eq (steps : List ToolStep)
    (h : ∀ s ∈ steps, (stepEntry? s).isSome) :
    (steps.filterMap stepEntry?).length = steps.length := by
  induction steps with
  | nil => rfl
  | cons s ss ih =>
      have hs := h s (by simp)
      cases he : stepEntry? s with
      | none => rw [he] at hs; simp at hs
      | some e =>
          simp only [List.filterMap_cons, he, List.length_cons]
          rw [ih (fun x hx => h x (by simp [hx]))]

/-- A successful search or agent step records exactly one entry. -/
theorem stepEntry_isSome (s : ToolStep) (hname : s.name = "search" ∨ s.name = "agent")
    (hsucc : stepSucceeds s = true) : (stepEntry? s).isSome := by
  obtain ⟨u, now, name, args⟩ := s
  simp only [stepSucceeds] at hsucc
  rcases hname with h | h
  · subst h
    by_cases hv : isValidSearchArgs args = true
    · cases hu : u (UpstreamReq.knowledge (searchBody args)) with
      | ok d => simp [stepEntry?, hv, hu]
      | error e =>
          rw [callTool_search, if_pos hv, hu] at hsucc
          simp at hsucc
    · rw [callTool_search, if_neg (by simp [hv])] at hsucc
      simp at hsucc
  · subst h
    by_cases ht : truthyOpt (getOpt args "prompt") = true
    · cases hu : u (UpstreamReq.agent (agentBody args)) with
      | ok d => simp [stepEntry?, ht, hu]
      | error e =>
          rw [callTool_agent, if_pos ht, hu] at hsucc
          simp at hsucc
    · rw [callTool_agent, if_neg (by simp [ht])] at hsucc
      simp at hsucc

/-- C1: over every sequence of search and agent calls that all succeed,
the cache built from empty never exceeds 5 entries, each call records
exactly one entry, and the final cache is exactly the reversed entry list
truncated to 5: the 5 most recent results, newest first (insertion at the
front, oldest dropped). -/
theorem recent_cache_invariant (steps : List ToolStep)
    (h : ∀ s ∈ steps, (s.name = "search" ∨ s.name = "agent") ∧ stepSucceeds s = true) :
    (runCalls steps []).length ≤ MAX_CACHED_SEARCHES ∧
    (steps.filterMap stepEntry?).length = steps.length ∧
    runCalls steps [] = (steps.filterMap stepEntry?).reverse.take MAX_CACHED_SEARCHES := by
  have hrun := runCalls_eq_take steps [] (by simp)
  have hfm := length_filterMap_eq steps (fun s hs => stepEntry_isSome s (h s hs).1 (h s hs).2)
  refine ⟨?_, hfm, ?_⟩
  · rw [hrun, List.append_nil, List.length_take]
    exact Nat.min_le_left _ _
  · rw [hrun, List.append_nil]

/-- One successful search call used by the C1 witness, tagged with its
position so the recorded entries are distinguishable. -/
def witnessStep (i : Nat) : ToolStep :=
  { u := fun _ => Except.ok (JValue.str (toString i)), now := toString i, name := "search"
    args := some (JValue.obj [("query", JValue.str "what is blockchain")]) }

/-- Witness for recent_cache_invariant: seven successful search calls. -/
theorem recent_cache_invariant_witness :
    (runCalls ([0, 1, 2, 3, 4, 5, 6].map witnessStep) []).length ≤ MAX_CACHED_SEARCHES ∧
    (([0, 1, 2, 3, 4, 5, 6].map witnessStep).filterMap stepEntry?).length =
      ([0, 1, 2, 3, 4, 5, 6].map witnessStep).length ∧
    runCalls ([0, 1, 2, 3, 4, 5, 6].map witnessStep) [] =
      (([0, 1, 2, 3, 4, 5, 6].map witnessStep).filterMap stepEntry?).reverse.take
        MAX_CACHED_SEARCHES :=
  recent_cache_invariant _ (by
    intro s hs
    simp only [List.mem_map] at hs
    obtain ⟨i, _, rfl⟩ := hs
    exact ⟨Or.inl rfl, rfl⟩)
